import Mathlib

/-!
Verification development for the adaptive rendering resource-management core
of the LACS-WORLD-3 repository: device classification (`PerfFlags`), the
quality-tier budget table (`performanceTiers` in `agent/knowledge-base.mjs`),
geometry decimation (`simplifyGeometryForMobile` / `shouldSimplifyMesh`),
renderer backend selection with WebGPU smoke test (`makeRenderer`), the
WebGL context-loss handler, the shadow-frustum fitter and the frame
performance governor.

JavaScript numbers are modelled as `ℚ` (or `Nat` where the source only ever
holds non-negative integers); `undefined`-able values as `Option`;
side-effecting handlers as explicit state transformers that also emit a
trace of the primitive effects they perform, in order.
-/

namespace LacsWorld

/-! ## String helpers (JS `RegExp.test` with literal alternatives, `String.includes`) -/

/-- Tests whether `pat` occurs as a contiguous substring of `s` (case sensitive).
Models JS `String.prototype.includes`. -/
def strContains (s pat : String) : Bool :=
  (List.range (s.length + 1)).any (fun i => pat.toList.isPrefixOf (s.toList.drop i))

/-- Lower-case every character; used to model the `i` regexp flag. -/
def strToLower (s : String) : String :=
  String.map Char.toLower s

/-- Case-insensitive substring test. -/
def strContainsCI (s pat : String) : Bool :=
  strContains (strToLower s) (strToLower pat)

/-- The alternatives of the literal regexp `/Mobi|Android|iPhone|iPad|iPod/i`
from `PerfFlags`. -/
def mobileUAPatterns : List String :=
  ["Mobi", "Android", "iPhone", "iPad", "iPod"]

/-- JS `/Mobi|Android|iPhone|iPad|iPod/i.test(userAgent)`. -/
def testMobileUA (ua : String) : Bool :=
  mobileUAPatterns.any (fun p => strContainsCI ua p)

/-- JS `/iPhone|iPad|iPod/i.test(userAgent)`. -/
def testIOSUA (ua : String) : Bool :=
  ["iPhone", "iPad", "iPod"].any (fun p => strContainsCI ua p)

/-! ## Device classification (`src/perf/PerfFlags.ts`) -/

/-- Source `export type Tier = "mobileLow" | "desktopHigh"` — the tier type the
classifier actually produces. -/
inductive Tier where
  | mobileLow
  | desktopHigh
deriving DecidableEq, Repr

/-- The quality-tier enumeration exactly as the spec's data model words it
(`QualityTier: enumerated variant {Low, Balanced, High}`), written down
separately so it can be compared with the source's `Tier`. -/
inductive QualityTierSpec where
  | low
  | balanced
  | high
deriving DecidableEq, Repr

/-- The one-shot platform signals read by `PerfFlags` at classification time:
`navigator.userAgent`, `'ontouchstart' in window`, `navigator.maxTouchPoints`,
`window.innerWidth` / `innerHeight`, `navigator.deviceMemory` (absent on some
browsers, hence `Option`). -/
structure DeviceSignals where
  userAgent : String
  hasOntouchstart : Bool
  maxTouchPoints : Nat
  innerWidth : Nat
  innerHeight : Nat
  deviceMemory : Option ℚ
deriving DecidableEq, Repr

/-- The record returned by the `PerfFlags` IIFE. -/
structure PerfFlagsT where
  tier : Tier
  isMobile : Bool
  isIOS : Bool
  dynamicShadows : Bool
  ssr : Bool
  ssgi : Bool
  ao : Bool
  bloom : Bool
  anisotropy : Nat
  maxTextureSize : Nat
  useLogDepth : Bool
  originRebase : Bool
deriving DecidableEq, Repr

/-- Source `const isMobileUA = /Mobi|Android|iPhone|iPad|iPod/i.test(userAgent)`. -/
def isMobileUA (s : DeviceSignals) : Bool :=
  testMobileUA s.userAgent

/-- Source `const isTouchDevice = ('ontouchstart' in window) || (navigator.maxTouchPoints > 0)`. -/
def isTouchDevice (s : DeviceSignals) : Bool :=
  s.hasOntouchstart || decide (0 < s.maxTouchPoints)

/-- Source `const isNarrowViewport = window.innerWidth < 768`. -/
def isNarrowViewport (s : DeviceSignals) : Bool :=
  decide (s.innerWidth < 768)

/-- Source `const hasLowMemory = (navigator as any).deviceMemory ?
(navigator as any).deviceMemory <= 4 : false`.  The ternary condition is JS
truthiness, so an `undefined` (`none`) or `0` report leaves this false. -/
def hasLowMemory (s : DeviceSignals) : Bool :=
  match s.deviceMemory with
  | none => false
  | some m => if m = 0 then false else decide (m ≤ 4)

/-- Source `const isSimulatorSize = window.innerWidth < 600 || window.innerHeight < 600`. -/
def isSimulatorSize (s : DeviceSignals) : Bool :=
  decide (s.innerWidth < 600) || decide (s.innerHeight < 600)

/-- Source `const isMobile = isMobileUA || (isTouchDevice && isNarrowViewport) ||
hasLowMemory || isSimulatorSize` -/
def isMobile (s : DeviceSignals) : Bool :=
  isMobileUA s || (isTouchDevice s && isNarrowViewport s) || hasLowMemory s || isSimulatorSize s

/-- Source `const tier: Tier = isMobile ? "mobileLow" : "desktopHigh"`. -/
def tierFor (s : DeviceSignals) : Tier :=
  if isMobile s then .mobileLow else .desktopHigh

/-- The record returned by the `PerfFlags` IIFE (`src/perf/PerfFlags.ts`). -/
def computePerfFlags (s : DeviceSignals) : PerfFlagsT :=
  { tier := tierFor s
    isMobile := isMobile s
    isIOS := testIOSUA s.userAgent
    dynamicShadows := decide (tierFor s = .desktopHigh)
    ssr := false
    ssgi := decide (tierFor s = .desktopHigh)
    ao := decide (tierFor s = .desktopHigh)
    bloom := decide (tierFor s = .desktopHigh)
    anisotropy := if tierFor s = .desktopHigh then 8 else 2
    maxTextureSize := if tierFor s = .desktopHigh then 4096 else 1024
    useLogDepth := false
    originRebase := false }

/-! ## Quality-tier budget table (`agent/knowledge-base.mjs`, `performanceTiers`) -/

/-- The `postProcessing` field takes `false`, `'minimal'` or `true`. -/
inductive PostProcessingLevel where
  | off
  | minimal
  | full
deriving DecidableEq, Repr

/-- One `config` block of `MobileKnowledgeBase.performanceTiers`. -/
structure KBTierConfig where
  pixelRatio : ℚ
  shadowMapSize : Nat
  maxTextureSize : Nat
  anisotropy : Nat
  postProcessing : PostProcessingLevel
  dynamicShadows : Bool
  ao : Bool
  bloom : Bool
  ssgi : Bool
  ssr : Bool
  maxCanvasPixels : Nat
deriving DecidableEq, Repr

/-- Table row `performanceTiers.LOW.config`. -/
def performanceTiersLOW : KBTierConfig :=
  { pixelRatio := 1
    shadowMapSize := 1024
    maxTextureSize := 1024
    anisotropy := 1
    postProcessing := .off
    dynamicShadows := false
    ao := false
    bloom := false
    ssgi := false
    ssr := false
    maxCanvasPixels := 900000 }

/-- Table row `performanceTiers.BALANCED.config`. -/
def performanceTiersBALANCED : KBTierConfig :=
  { pixelRatio := 13/10
    shadowMapSize := 1024
    maxTextureSize := 2048
    anisotropy := 2
    postProcessing := .minimal
    dynamicShadows := false
    ao := false
    bloom := true
    ssgi := false
    ssr := false
    maxCanvasPixels := 1200000 }

/-- Table row `performanceTiers.HIGH.config`. -/
def performanceTiersHIGH : KBTierConfig :=
  { pixelRatio := 2
    shadowMapSize := 2048
    maxTextureSize := 4096
    anisotropy := 4
    postProcessing := .full
    dynamicShadows := true
    ao := true
    bloom := true
    ssgi := false
    ssr := false
    maxCanvasPixels := 3000000 }

/-! ## Geometry decimation (`src/utils/simplifyGeometry.ts`)

A `THREE.BufferGeometry` is modelled by the data the decimator touches: the
vertex count of the `position` attribute, the optional index buffer, and
markers recording whether the three.js recomputation routines
(`computeVertexNormals`, `computeBoundingSphere`, `computeBoundingBox` —
library code outside this repository) have been run on the current data. -/

structure Geometry where
  vertexCount : Nat
  index : Option (List Nat)
  normalsRecomputed : Bool
  boundingSphereRecomputed : Bool
  boundingBoxRecomputed : Bool
deriving DecidableEq, Repr

/-- JS `Math.ceil(a / b)` for positive integers, as used for `step`. -/
def jsCeilDiv (a b : Nat) : Nat :=
  (a + b - 1) / b

/-- The decimation loop
`for (let i = 0; i < indexCount; i += step * 3) { if (i + 2 < indexCount) push 3 }`
with stride `d = step * 3`, started at `i`.  (The `0 < d` guard is required
for termination; every reachable call has `d = step * 3 ≥ 3`.) -/
def collectTriangles (idx : List Nat) (n d i : Nat) : List Nat :=
  if h : i < n ∧ 0 < d then
    (if i + 2 < n then [idx.getD i 0, idx.getD (i + 1) 0, idx.getD (i + 2) 0] else [])
      ++ collectTriangles idx n d (i + d)
  else
    []
termination_by n - i
decreasing_by omega

/-- The index-buffer rewrite inside `simplifyGeometryForMobile`:
`targetIndexCount = Math.floor(indexCount * targetRatio)`,
`step = Math.ceil(indexCount / targetIndexCount)`, then the stride loop.
When `targetIndexCount` is `0`, JS computes `step = Infinity` and the loop
body runs exactly once at `i = 0`. -/
def decimateIndex (idx : List Nat) (targetRatio : ℚ) : List Nat :=
  let indexCount := idx.length
  let targetIndexCount := (⌊(indexCount : ℚ) * targetRatio⌋).toNat
  if targetIndexCount = 0 then
    if 2 < indexCount then [idx.getD 0 0, idx.getD 1 0, idx.getD 2 0] else []
  else
    let step := jsCeilDiv indexCount targetIndexCount
    collectTriangles idx indexCount (step * 3) 0

/-- The value of the clone after all in-place updates of
`simplifyGeometryForMobile`: decimate the index buffer when one is present
(`if (simplified.index)`), then `computeVertexNormals()`,
`computeBoundingSphere()`, `computeBoundingBox()`. -/
def simplifyCore (g : Geometry) (targetRatio : ℚ) : Geometry :=
  let simplified := g
  let simplified :=
    match simplified.index with
    | none => simplified
    | some idx => { simplified with index := some (decimateIndex idx targetRatio) }
  { simplified with
      normalsRecomputed := true
      boundingSphereRecomputed := true
      boundingBoxRecomputed := true }

/-- Source `simplifyGeometryForMobile(geometry, targetRatio)` as a function on
geometry values: below 10000 vertices the input is returned unchanged,
otherwise all changes land on a clone. -/
def simplifyGeometryForMobile (g : Geometry) (targetRatio : ℚ) : Geometry :=
  if g.vertexCount < 10000 then g else simplifyCore g targetRatio

/-- Source `shouldSimplifyMesh(mesh, isMobile)`: false off the mobile tier or when
the mesh has no positioned geometry; otherwise requires strictly more than
50000 vertices. -/
def shouldSimplifyMesh (geometry : Option Geometry) (isMobileArg : Bool) : Bool :=
  if !isMobileArg then false
  else
    match geometry with
    | none => false
    | some g => decide (50000 < g.vertexCount)

/-- An object store, for stating that the decimator never writes through its
argument reference: geometry objects are addressed by position, `clone`
allocates a fresh address. -/
structure GeomStore where
  geoms : List Geometry
deriving DecidableEq, Repr

def GeomStore.get (s : GeomStore) (i : Nat) : Option Geometry :=
  s.geoms[i]?

def GeomStore.alloc (s : GeomStore) (g : Geometry) : GeomStore × Nat :=
  (⟨s.geoms ++ [g]⟩, s.geoms.length)

/-- Source `simplifyGeometryForMobile` at the object level: below the vertex guard
the argument's address is returned and the store is untouched; otherwise
`geometry.clone()` allocates a fresh object and every update is applied
there. -/
def simplifyGeometryForMobileRef (s : GeomStore) (gid : Nat) (targetRatio : ℚ) :
    GeomStore × Nat :=
  match s.get gid with
  | none => (s, gid)
  | some g =>
    if g.vertexCount < 10000 then (s, gid)
    else s.alloc (simplifyCore g targetRatio)

/-! ## Renderer backend selection (`src/graphics/makeRenderer.ts`) -/

inductive RendererType where
  | webgpu
  | webgl2
deriving DecidableEq, Repr

/-- How the platform WebGPU stack behaves during this initialization attempt;
this is the one-shot external input of `createWebGPURenderer`. -/
inductive WebGPUBehavior where
  /-- the dynamic import, construction or `renderer.init()` throws -/
  | initThrows
  /-- smoke test: `!renderer.backend || !renderer.backend.device` -/
  | noBackendDevice
  /-- smoke test: `renderer.render(scene, camera)` throws -/
  | renderThrows
  /-- smoke test renders the synthetic cube successfully -/
  | rendersOk
deriving DecidableEq, Repr

/-- The externally visible steps taken while choosing a backend. -/
inductive GPUEvent where
  | webgpuAttempt
  | smokePass
  | smokeFail
  | webgpuDispose
  | webglCreate
deriving DecidableEq, Repr

/-- Source `smokeTestWebGPU(renderer)`: false when the backend device is missing or
the synthetic render throws, true when the cube renders.  (Never reached when
initialization itself threw.) -/
def smokeTestWebGPU (b : WebGPUBehavior) : Bool :=
  match b with
  | .noBackendDevice => false
  | .renderThrows => false
  | _ => true

/-- Source `createWebGPURenderer(canvas)`: `null` on an initialization exception; on
a failed smoke test the attempted renderer is disposed and `null` returned;
otherwise the WebGPU renderer. -/
def createWebGPURenderer (b : WebGPUBehavior) : Option RendererType × List GPUEvent :=
  match b with
  | .initThrows => (none, [.webgpuAttempt])
  | b =>
    if smokeTestWebGPU b then (some .webgpu, [.webgpuAttempt, .smokePass])
    else (none, [.webgpuAttempt, .smokeFail, .webgpuDispose])

structure RendererResult where
  rtype : RendererType
deriving DecidableEq, Repr

/-- Source `makeRenderer(canvas, tier)`: WebGL2 immediately unless the platform
advertises WebGPU (`navigator.gpu`) and the tier string requests it
(`tier.includes('webgpu')`); otherwise one WebGPU attempt, falling back to
WebGL2 when it returns `null`. -/
def makeRenderer (hasWebGPU : Bool) (tier : String) (b : WebGPUBehavior) :
    RendererResult × List GPUEvent :=
  if !hasWebGPU || !(strContains tier "webgpu") then
    ({ rtype := .webgl2 }, [.webglCreate])
  else
    match createWebGPURenderer b with
    | (some _, tr) => ({ rtype := .webgpu }, tr)
    | (none, tr) => ({ rtype := .webgl2 }, tr ++ [.webglCreate])

/-! ## WebGL context-loss handler (`createWebGLRenderer`) -/

/-- The primitive effects the `webglcontextlost` listener performs. -/
inductive LossEvent where
  | preventDefault
  | consoleError
  | setLostFlag
  | showBanner
deriving DecidableEq, Repr

/-- The page state the handler touches. -/
structure PageState where
  defaultPrevented : Bool
  localStorage : List (String × String)
  bannerShown : Bool
deriving DecidableEq, Repr

/-- JS `localStorage.setItem(k, v)` on an association list. -/
def lsSetItem (store : List (String × String)) (k v : String) : List (String × String) :=
  (k, v) :: store.filter (fun kv => kv.1 != k)

/-- The `webglcontextlost` listener body, in program order:
`e.preventDefault()`, `console.error(...)`,
`localStorage.setItem('webglContextLost', 'true')`, build the banner and
`document.body.appendChild(banner)`.  Returns the final page state and the
trace of effects in the order performed. -/
def onWebglContextLost (st : PageState) : PageState × List LossEvent :=
  let st1 := { st with defaultPrevented := true }
  let st2 := st1
  let st3 := { st2 with localStorage := lsSetItem st2.localStorage "webglContextLost" "true" }
  let st4 := { st3 with bannerShown := true }
  (st4, [.preventDefault, .consoleError, .setLostFlag, .showBanner])

/-! ## Shadow-frustum fitting (`ShadowFit.tsx`, via `src/TECHNICAL_ANALYSIS.md` §7.2) -/

/-- Extended coordinate value: a fresh (empty) three.js `Box3` carries
`min = (+Infinity, +Infinity, +Infinity)` and `max = (−Infinity, …)`. -/
inductive ExtVal where
  | negInf
  | fin (x : ℚ)
  | posInf
deriving DecidableEq, Repr

/-- IEEE `<` restricted to non-NaN values. -/
def ExtVal.ltE : ExtVal → ExtVal → Bool
  | .negInf, .negInf => false
  | .negInf, _ => true
  | _, .negInf => false
  | .posInf, _ => false
  | _, .posInf => true
  | .fin a, .fin b => decide (a < b)

/-- JS `Math.min` on non-NaN extended values. -/
def ExtVal.minE (a b : ExtVal) : ExtVal :=
  if ExtVal.ltE a b then a else b

/-- JS `Math.max` on non-NaN extended values. -/
def ExtVal.maxE (a b : ExtVal) : ExtVal :=
  if ExtVal.ltE a b then b else a

structure EVec3 where
  x : ExtVal
  y : ExtVal
  z : ExtVal
deriving DecidableEq, Repr

/-- three.js `Box3` with its empty-box sentinel representation. -/
structure EBox3 where
  minV : EVec3
  maxV : EVec3
deriving DecidableEq, Repr

/-- Value of `new Box3()`. -/
def EBox3.emptyBox : EBox3 :=
  ⟨⟨.posInf, .posInf, .posInf⟩, ⟨.negInf, .negInf, .negInf⟩⟩

/-- Library `Box3.isEmpty()`: `max.x < min.x || max.y < min.y || max.z < min.z`. -/
def EBox3.isEmpty (b : EBox3) : Bool :=
  ExtVal.ltE b.maxV.x b.minV.x || ExtVal.ltE b.maxV.y b.minV.y || ExtVal.ltE b.maxV.z b.minV.z

/-- Library `Box3.union` / `expandByObject`: componentwise min of mins, max of maxes. -/
def EBox3.union (a b : EBox3) : EBox3 :=
  ⟨⟨ExtVal.minE a.minV.x b.minV.x, ExtVal.minE a.minV.y b.minV.y, ExtVal.minE a.minV.z b.minV.z⟩,
   ⟨ExtVal.maxE a.maxV.x b.maxV.x, ExtVal.maxE a.maxV.y b.maxV.y, ExtVal.maxE a.maxV.z b.maxV.z⟩⟩

/-- Library `Box3.applyMatrix4(m)`: three.js returns an empty box unchanged; the
corner transform for a non-empty box (library code, driven by the light's
`matrixWorldInverse`) is supplied as the opaque box transform `f`. -/
def EBox3.applyTransform (b : EBox3) (f : EBox3 → EBox3) : EBox3 :=
  if b.isEmpty then b else f b

/-- A scene object as the fitter sees it: its world-space bounding box and
the result of the `camera.frustum.intersectsObject(obj)` test this frame. -/
structure SceneObj where
  box : EBox3
  inCameraFrustum : Bool
deriving DecidableEq, Repr

/-- The shadow light's orthographic camera bounds. -/
structure ShadowCamBounds where
  left : ExtVal
  right : ExtVal
  top : ExtVal
  bottom : ExtVal
  near : ExtVal
  far : ExtVal
deriving DecidableEq, Repr

/-- Modelled from the spec: `fitShadowFrustum` of `ShadowFit.tsx`, whose
implementation file is not among the provided sources; this follows the
pseudo-code of `src/TECHNICAL_ANALYSIS.md` §7.2 step by step.  `prev` holds
the light's bounds from the previous frame — the fields the final
assignments overwrite. -/
def fitShadowFrustum (objs : List SceneObj) (lightInv : EBox3 → EBox3)
    (prev : ShadowCamBounds) : ShadowCamBounds :=
  let visibleObjects := objs.filter (fun o => o.inCameraFrustum)
  let bbox := visibleObjects.foldl (fun b o => EBox3.union b o.box) EBox3.emptyBox
  let lightSpaceBox := bbox.applyTransform lightInv
  { left := lightSpaceBox.minV.x
    right := lightSpaceBox.maxV.x
    top := lightSpaceBox.maxV.y
    bottom := lightSpaceBox.minV.y
    near := lightSpaceBox.minV.z
    far := lightSpaceBox.maxV.z }

/-! ## Frame performance governor -/

/-- Constant `fpsTargets.frameGovernor.jankThreshold` (ms) from `agent/knowledge-base.mjs`. -/
def jankThresholdMs : Nat := 50

/-- Constant `fpsTargets.frameGovernor.jankTolerance` (frames). -/
def jankToleranceFrames : Nat := 8

/-- Constant `fpsTargets.frameGovernor.degradationStages` has the three stages
`stage1`–`stage3`. -/
def degradationStageCount : Nat := 3

/-- Modelled from the spec: the FramePerformanceGovernor state (§4.7) — the
implementation is not among the provided sources, only its constants in
`agent/knowledge-base.mjs`.  A bounded rolling window of recent frame
durations (most recent first) and the current degradation stage index. -/
structure GovernorState where
  window : List Nat
  stage : Nat
deriving DecidableEq, Repr

/-- Modelled from the spec: one frame boundary of the governor.  Record the
sample in the fixed-size rolling window; when the janky-frame count in the
window exceeds the tolerance, advance one degradation stage (never past the
last stage, never backwards) and start a fresh window, so a burst advances
exactly one stage. -/
def governorStep (windowSize : Nat) (s : GovernorState) (frameMs : Nat) : GovernorState :=
  let window := (frameMs :: s.window).take windowSize
  let janky := window.countP (fun d => decide (jankThresholdMs < d))
  if jankToleranceFrames < janky then
    { window := []
      stage := if s.stage < degradationStageCount then s.stage + 1 else s.stage }
  else
    { window := window, stage := s.stage }

/-- Modelled from the spec: a session is the fold of `governorStep` over the
frame durations it observes. -/
def governorRun (windowSize : Nat) (s : GovernorState) (frames : List Nat) : GovernorState :=
  frames.foldl (governorStep windowSize) s

/-! ## Theorems -/

/-- C1: for every signal tuple (with a live, i.e. non-zero, memory report
when one is present), the classifier selects the constrained `mobileLow`
tier iff the user agent matches a handheld pattern, or touch capability is
present and the viewport is narrower than 768 px, or the reported device
memory is at most 4 GB, or either viewport dimension is under 600 px; in
every other case it selects the unconstrained `desktopHigh` tier. -/
theorem perfFlags_constrained_iff (s : DeviceSignals) (hmem : s.deviceMemory ≠ some 0) :
    ((computePerfFlags s).tier = Tier.mobileLow ↔
      (testMobileUA s.userAgent = true ∨
        ((s.hasOntouchstart = true ∨ 0 < s.maxTouchPoints) ∧ s.innerWidth < 768) ∨
        (∃ m, s.deviceMemory = some m ∧ m ≤ 4) ∨
        (s.innerWidth < 600 ∨ s.innerHeight < 600))) ∧
    ((computePerfFlags s).tier ≠ Tier.mobileLow → (computePerfFlags s).tier = Tier.desktopHigh) := by
  constructor
  · show tierFor s = Tier.mobileLow ↔ _
    have hmob : tierFor s = Tier.mobileLow ↔ isMobile s = true := by
      unfold tierFor
      split <;> simp_all
    rw [hmob]
    unfold isMobile isMobileUA isTouchDevice isNarrowViewport hasLowMemory isSimulatorSize
    cases hd : s.deviceMemory with
    | none =>
      simp only [hd, Bool.or_eq_true, Bool.and_eq_true, decide_eq_true_eq,
        reduceCtorEq, false_and, exists_false, false_or]
      itauto
    | some m =>
      have hm : ¬ m = 0 := fun h => hmem (by rw [hd, h])
      simp only [hd, hm, if_false, Bool.or_eq_true, Bool.and_eq_true, decide_eq_true_eq,
        Option.some.injEq, exists_eq_left']
      itauto
  · intro h
    cases h2 : (computePerfFlags s).tier with
    | mobileLow => exact absurd h2 h
    | desktopHigh => rfl

/-- Spec scenario 1's signals: touch device, 375×667 viewport, 3 GB memory,
desktop-looking user agent. -/
def sigScenario1 : DeviceSignals :=
  { userAgent := "Mozilla/5.0 (X11; Linux x86_64)"
    hasOntouchstart := true
    maxTouchPoints := 5
    innerWidth := 375
    innerHeight := 667
    deviceMemory := some 3 }

/-- Witness for C1 at spec scenario 1: the hypotheses hold there and the
classifier picks the constrained tier. -/
theorem perfFlags_constrained_iff_witness :
    sigScenario1.deviceMemory ≠ some 0 ∧ (computePerfFlags sigScenario1).tier = Tier.mobileLow :=
  ⟨by decide, (perfFlags_constrained_iff sigScenario1 (by decide)).1.mpr
    (Or.inr (Or.inl ⟨Or.inl rfl, by decide⟩))⟩

/-- C8 counterexample: the tier type the classifier produces has no three
pairwise-distinct values, so it is not an enumeration of the three variants
Low, Balanced and High. -/
theorem tier_not_three_variants : ¬ ∃ a b c : Tier, a ≠ b ∧ a ≠ c ∧ b ≠ c := by
  rintro ⟨a, b, c, hab, hac, hbc⟩
  cases a <;> cases b <;> cases c <;> simp_all

/-- C8 (amended): the classifier's `Tier` has exactly the two distinct
variants `mobileLow` and `desktopHigh`, and every classification result is
one of them. -/
theorem classification_two_variants :
    (∀ s : DeviceSignals, (computePerfFlags s).tier = Tier.mobileLow ∨
      (computePerfFlags s).tier = Tier.desktopHigh) ∧
    Tier.mobileLow ≠ Tier.desktopHigh := by
  constructor
  · intro s
    cases h : (computePerfFlags s).tier with
    | mobileLow => exact Or.inl rfl
    | desktopHigh => exact Or.inr rfl
  · intro h
    cases h

/-- C7: every resource-cost field of the knowledge-base tier table is
non-decreasing from LOW through BALANCED to HIGH. -/
theorem performanceTiers_cost_monotone :
    (performanceTiersLOW.pixelRatio ≤ performanceTiersBALANCED.pixelRatio ∧
      performanceTiersBALANCED.pixelRatio ≤ performanceTiersHIGH.pixelRatio) ∧
    (performanceTiersLOW.shadowMapSize ≤ performanceTiersBALANCED.shadowMapSize ∧
      performanceTiersBALANCED.shadowMapSize ≤ performanceTiersHIGH.shadowMapSize) ∧
    (performanceTiersLOW.maxTextureSize ≤ performanceTiersBALANCED.maxTextureSize ∧
      performanceTiersBALANCED.maxTextureSize ≤ performanceTiersHIGH.maxTextureSize) ∧
    (performanceTiersLOW.anisotropy ≤ performanceTiersBALANCED.anisotropy ∧
      performanceTiersBALANCED.anisotropy ≤ performanceTiersHIGH.anisotropy) ∧
    (performanceTiersLOW.maxCanvasPixels ≤ performanceTiersBALANCED.maxCanvasPixels ∧
      performanceTiersBALANCED.maxCanvasPixels ≤ performanceTiersHIGH.maxCanvasPixels) := by
  norm_num [performanceTiersLOW, performanceTiersBALANCED, performanceTiersHIGH]

/-- C4: on every loss event the handler's trace starts with
`preventDefault`, which precedes both the durable flag write and the
user-visible banner; all three effects occur, and the final page state has
default recovery suppressed, the `webglContextLost` flag persisted and the
banner shown. -/
theorem contextLost_preventDefault_first (st : PageState) :
    (onWebglContextLost st).2.head? = some LossEvent.preventDefault ∧
    (onWebglContextLost st).2.indexOf LossEvent.preventDefault <
      (onWebglContextLost st).2.indexOf LossEvent.setLostFlag ∧
    (onWebglContextLost st).2.indexOf LossEvent.preventDefault <
      (onWebglContextLost st).2.indexOf LossEvent.showBanner ∧
    LossEvent.preventDefault ∈ (onWebglContextLost st).2 ∧
    LossEvent.setLostFlag ∈ (onWebglContextLost st).2 ∧
    LossEvent.showBanner ∈ (onWebglContextLost st).2 ∧
    (onWebglContextLost st).1.defaultPrevented = true ∧
    (onWebglContextLost st).1.localStorage.lookup "webglContextLost" = some "true" ∧
    (onWebglContextLost st).1.bannerShown = true := by
  have htr : (onWebglContextLost st).2 =
      [LossEvent.preventDefault, LossEvent.consoleError, LossEvent.setLostFlag,
        LossEvent.showBanner] := rfl
  refine ⟨rfl, ?_, ?_, ?_, ?_, ?_, rfl, rfl, rfl⟩ <;> rw [htr] <;> decide

/-- One frame boundary can only keep or advance the degradation stage. -/
theorem governorStep_stage_le (w : Nat) (s : GovernorState) (d : Nat) :
    s.stage ≤ (governorStep w s d).stage := by
  unfold governorStep
  dsimp only
  split
  · dsimp only
    split <;> omega
  · exact Nat.le_refl _

/-- Length bound for the decimation loop: with stride at least 3 it emits at
most one index per remaining input index. -/
theorem collectTriangles_length_le (idx : List Nat) (n d : Nat) (hd : 3 ≤ d) :
    ∀ m i, n - i ≤ m → (collectTriangles idx n d i).length ≤ n - i := by
  intro m
  induction m with
  | zero =>
    intro i hi
    rw [collectTriangles, dif_neg (by omega : ¬(i < n ∧ 0 < d))]
    simp
  | succ m ih =>
    intro i hi
    rw [collectTriangles]
    by_cases h : i < n ∧ 0 < d
    · rw [dif_pos h]
      have hrec := ih (i + d) (by omega)
      by_cases hp : i + 2 < n
      · rw [if_pos hp]
        simp only [List.length_append, List.length_cons, List.length_nil]
        omega
      · rw [if_neg hp]
        simp only [List.nil_append]
        omega
    · rw [dif_neg h]
      simp

/-- The decimation loop always emits whole triangles. -/
theorem collectTriangles_length_dvd (idx : List Nat) (n d : Nat) :
    ∀ m i, n - i ≤ m → 3 ∣ (collectTriangles idx n d i).length := by
  intro m
  induction m with
  | zero =>
    intro i hi
    rw [collectTriangles, dif_neg (by omega : ¬(i < n ∧ 0 < d))]
    simp
  | succ m ih =>
    intro i hi
    rw [collectTriangles]
    by_cases h : i < n ∧ 0 < d
    · rw [dif_pos h]
      have hrec := ih (i + d) (by omega)
      by_cases hp : i + 2 < n
      · rw [if_pos hp]
        simp only [List.length_append, List.length_cons, List.length_nil]
        omega
      · rw [if_neg hp]
        simpa using hrec
    · rw [dif_neg h]
      simp

/-- Closed form for the decimation loop's output length. -/
theorem collectTriangles_length_eq (idx : List Nat) (n d : Nat) (hd : 0 < d) :
    ∀ m i, n - i ≤ m →
      (collectTriangles idx n d i).length =
        if i + 2 < n then 3 * ((n - 3 - i) / d + 1) else 0 := by
  intro m
  induction m with
  | zero =>
    intro i hi
    rw [collectTriangles, dif_neg (by omega : ¬(i < n ∧ 0 < d)), if_neg (by omega)]
    simp
  | succ m ih =>
    intro i hi
    by_cases hin : i < n
    · rw [collectTriangles, dif_pos ⟨hin, hd⟩, List.length_append]
      have hrec := ih (i + d) (by omega)
      by_cases hp : i + 2 < n
      · rw [if_pos hp, if_pos hp]
        by_cases hq : i + d + 2 < n
        · rw [if_pos hq] at hrec
          have h2 : d ≤ n - 3 - i := by omega
          have h3 : n - 3 - (i + d) = n - 3 - i - d := by omega
          rw [h3] at hrec
          have hdiv : (n - 3 - i) / d = (n - 3 - i - d) / d + 1 :=
            Nat.div_eq_sub_div hd h2
          simp only [List.length_cons, List.length_nil]
          omega
        · rw [if_neg hq] at hrec
          have hdiv : (n - 3 - i) / d = 0 := Nat.div_eq_of_lt (by omega)
          simp only [List.length_cons, List.length_nil]
          omega
      · rw [if_neg hp, if_neg hp]
        have hq : ¬ i + d + 2 < n := by omega
        rw [if_neg hq] at hrec
        simp only [List.length_nil]
        omega
    · rw [collectTriangles, dif_neg (by omega : ¬(i < n ∧ 0 < d)), if_neg (by omega)]
      simp

/-- The rewritten index buffer is never longer than the input buffer. -/
theorem decimateIndex_length_le (idx : List Nat) (r : ℚ) :
    (decimateIndex idx r).length ≤ idx.length := by
  unfold decimateIndex
  dsimp only
  by_cases ht : (⌊(idx.length : ℚ) * r⌋).toNat = 0
  · rw [if_pos ht]
    by_cases h2 : 2 < idx.length
    · rw [if_pos h2]
      simp only [List.length_cons, List.length_nil]
      omega
    · rw [if_neg h2]
      simp
  · rw [if_neg ht]
    have hn : idx.length ≠ 0 := by
      intro h0
      apply ht
      rw [h0]
      simp
    have hstep : 1 ≤ jsCeilDiv idx.length (⌊(idx.length : ℚ) * r⌋).toNat := by
      unfold jsCeilDiv
      rw [Nat.one_le_div_iff (by omega)]
      omega
    simpa using
      collectTriangles_length_le idx idx.length
        (jsCeilDiv idx.length (⌊(idx.length : ℚ) * r⌋).toNat * 3) (by omega)
        idx.length 0 (by omega)

/-- The rewritten index buffer's length is always a multiple of 3. -/
theorem decimateIndex_length_dvd (idx : List Nat) (r : ℚ) :
    3 ∣ (decimateIndex idx r).length := by
  unfold decimateIndex
  dsimp only
  by_cases ht : (⌊(idx.length : ℚ) * r⌋).toNat = 0
  · rw [if_pos ht]
    by_cases h2 : 2 < idx.length
    · rw [if_pos h2]
      simp
    · rw [if_neg h2]
      simp
  · rw [if_neg ht]
    exact collectTriangles_length_dvd idx idx.length _ idx.length 0 (by omega)

/-- C2: for every indexed mesh (triangle list, index count divisible by 3)
and non-negative ratio, the decimator's output index count is at most the
input index count and divisible by 3, and a mesh below the 10000-vertex
guard is returned unchanged. -/
theorem simplifyGeometryForMobile_index_spec (g : Geometry) (idx : List Nat) (r : ℚ)
    (hr : 0 ≤ r) (hidx : g.index = some idx) (h3 : 3 ∣ idx.length) :
    (∃ idx2, (simplifyGeometryForMobile g r).index = some idx2 ∧
        idx2.length ≤ idx.length ∧ 3 ∣ idx2.length) ∧
    (g.vertexCount < 10000 → simplifyGeometryForMobile g r = g) := by
  unfold simplifyGeometryForMobile
  by_cases hv : g.vertexCount < 10000
  · rw [if_pos hv]
    exact ⟨⟨idx, hidx, Nat.le_refl _, h3⟩, fun _ => rfl⟩
  · rw [if_neg hv]
    refine ⟨⟨decimateIndex idx r, ?_, decimateIndex_length_le idx r,
      decimateIndex_length_dvd idx r⟩, fun hv2 => absurd hv2 hv⟩
    simp [simplifyCore, hidx]

/-- A 20000-vertex two-triangle mesh used to instantiate C2. -/
def witnessGeometry : Geometry :=
  { vertexCount := 20000
    index := some [0, 1, 2, 3, 4, 5]
    normalsRecomputed := false
    boundingSphereRecomputed := false
    boundingBoxRecomputed := false }

/-- Witness for C2 at a concrete mesh and ratio 1/2. -/
theorem simplifyGeometryForMobile_index_spec_witness :
    (0 : ℚ) ≤ 1/2 ∧ witnessGeometry.index = some [0, 1, 2, 3, 4, 5] ∧
    3 ∣ ([0, 1, 2, 3, 4, 5] : List Nat).length ∧
    ((∃ idx2, (simplifyGeometryForMobile witnessGeometry (1/2)).index = some idx2 ∧
        idx2.length ≤ ([0, 1, 2, 3, 4, 5] : List Nat).length ∧ 3 ∣ idx2.length) ∧
      (witnessGeometry.vertexCount < 10000 →
        simplifyGeometryForMobile witnessGeometry (1/2) = witnessGeometry)) :=
  ⟨by norm_num, rfl, by decide,
    simplifyGeometryForMobile_index_spec witnessGeometry [0, 1, 2, 3, 4, 5] (1/2)
      (by norm_num) rfl (by decide)⟩

/-- C10: the decimator never writes through its argument reference: the
object at `gid` still holds its old value afterwards; below the vertex guard
the very same address comes back with the store untouched, and above it the
result is a fresh address holding the processed clone. -/
theorem simplifyRef_no_mutation (s : GeomStore) (gid : Nat) (r : ℚ) (g : Geometry)
    (hg : s.get gid = some g) :
    (simplifyGeometryForMobileRef s gid r).1.get gid = some g ∧
    (g.vertexCount < 10000 → simplifyGeometryForMobileRef s gid r = (s, gid)) ∧
    (¬ g.vertexCount < 10000 →
      (simplifyGeometryForMobileRef s gid r).2 ≠ gid ∧
      (simplifyGeometryForMobileRef s gid r).1.get (simplifyGeometryForMobileRef s gid r).2 =
        some (simplifyCore g r)) := by
  have hlt : gid < s.geoms.length := by
    have h2 := hg
    unfold GeomStore.get at h2
    obtain ⟨hl, -⟩ := List.getElem?_eq_some.mp h2
    exact hl
  unfold simplifyGeometryForMobileRef
  rw [hg]
  dsimp only
  by_cases hv : g.vertexCount < 10000
  · rw [if_pos hv]
    exact ⟨hg, fun _ => rfl, fun h => absurd hv h⟩
  · rw [if_neg hv]
    refine ⟨?_, fun h => absurd h hv, fun _ => ⟨by dsimp [GeomStore.alloc]; omega, ?_⟩⟩
    · show GeomStore.get ⟨s.geoms ++ [simplifyCore g r]⟩ gid = some g
      unfold GeomStore.get at hg ⊢
      dsimp only
      rw [List.getElem?_append, if_pos hlt]
      exact hg
    · show GeomStore.get ⟨s.geoms ++ [simplifyCore g r]⟩ s.geoms.length =
        some (simplifyCore g r)
      unfold GeomStore.get
      dsimp only
      exact List.getElem?_concat_length _ _

/-- A one-object store holding the C2 witness mesh. -/
def witnessStore : GeomStore := ⟨[witnessGeometry]⟩

/-- Witness for C10 on the one-object store: the original slot is untouched
and the result lands at a fresh address. -/
theorem simplifyRef_no_mutation_witness :
    witnessStore.get 0 = some witnessGeometry ∧
    (simplifyGeometryForMobileRef witnessStore 0 (1/2)).1.get 0 = some witnessGeometry ∧
    (¬ witnessGeometry.vertexCount < 10000 →
      (simplifyGeometryForMobileRef witnessStore 0 (1/2)).2 ≠ 0 ∧
      (simplifyGeometryForMobileRef witnessStore 0 (1/2)).1.get
          (simplifyGeometryForMobileRef witnessStore 0 (1/2)).2 =
        some (simplifyCore witnessGeometry (1/2))) :=
  ⟨rfl, (simplifyRef_no_mutation witnessStore 0 (1/2) witnessGeometry rfl).1,
    (simplifyRef_no_mutation witnessStore 0 (1/2) witnessGeometry rfl).2.2⟩

/-- C3: when the platform advertises WebGPU, the tier requests it, and the
smoke test fails (missing backend device or a throwing synthetic render),
the factory disposes the attempted context and returns a WebGL2 renderer,
having attempted WebGPU exactly once; and on every input whatsoever the
factory resolves to a renderer of one of the two backends. -/
theorem makeRenderer_smoke_fail_falls_back (hasWebGPU : Bool) (tier : String)
    (b : WebGPUBehavior) (hgpu : hasWebGPU = true)
    (htier : strContains tier "webgpu" = true)
    (hfail : b = WebGPUBehavior.noBackendDevice ∨ b = WebGPUBehavior.renderThrows) :
    ((makeRenderer hasWebGPU tier b).1.rtype = RendererType.webgl2 ∧
      GPUEvent.webgpuDispose ∈ (makeRenderer hasWebGPU tier b).2 ∧
      (makeRenderer hasWebGPU tier b).2.count GPUEvent.webgpuAttempt = 1) ∧
    (∀ hg : Bool, ∀ t : String, ∀ b2 : WebGPUBehavior,
      (makeRenderer hg t b2).1.rtype = RendererType.webgpu ∨
        (makeRenderer hg t b2).1.rtype = RendererType.webgl2) := by
  constructor
  · subst hgpu
    unfold makeRenderer
    rw [htier]
    rcases hfail with h | h <;> subst h <;>
      exact ⟨rfl, by decide, by decide⟩
  · intro hg t b2
    cases h : (makeRenderer hg t b2).1.rtype with
    | webgpu => exact Or.inl rfl
    | webgl2 => exact Or.inr rfl

/-- Witness for C3: WebGPU advertised, tier requests it, synthetic render
throws — the factory falls back to WebGL2 after disposing the context. -/
theorem makeRenderer_smoke_fail_falls_back_witness :
    strContains "mobileLow-webgpu" "webgpu" = true ∧
    ((makeRenderer true "mobileLow-webgpu" WebGPUBehavior.renderThrows).1.rtype =
        RendererType.webgl2 ∧
      GPUEvent.webgpuDispose ∈
        (makeRenderer true "mobileLow-webgpu" WebGPUBehavior.renderThrows).2 ∧
      (makeRenderer true "mobileLow-webgpu" WebGPUBehavior.renderThrows).2.count
          GPUEvent.webgpuAttempt = 1) :=
  ⟨by decide,
    (makeRenderer_smoke_fail_falls_back true "mobileLow-webgpu" WebGPUBehavior.renderThrows
      rfl (by decide) (Or.inr rfl)).1⟩

/-- The 60000-vertex mesh of spec scenario 3, with a 360000-entry triangle
index buffer (120000 triangles). -/
def geo60k : Geometry :=
  { vertexCount := 60000
    index := some (List.replicate 360000 0)
    normalsRecomputed := false
    boundingSphereRecomputed := false
    boundingBoxRecomputed := false }

/-- At 360000 indices and ratio 3/10 the decimator computes
`targetIndexCount = 108000`, `step = 4`, and keeps 30000 triangles. -/
theorem decimate360000_length :
    (decimateIndex (List.replicate 360000 (0 : Nat)) (3/10)).length = 90000 := by
  unfold decimateIndex
  dsimp only
  rw [List.length_replicate]
  have htarget : ((⌊((360000 : Nat) : ℚ) * (3/10)⌋).toNat) = 108000 := by
    have h0 : ⌊((360000 : Nat) : ℚ) * (3/10)⌋ = 108000 := by norm_num
    rw [h0]
    decide
  rw [htarget, if_neg (by norm_num)]
  have hstep : jsCeilDiv 360000 108000 = 4 := by decide
  rw [hstep]
  have hc := collectTriangles_length_eq (List.replicate 360000 (0 : Nat)) 360000 (4 * 3)
    (by norm_num) 360000 0 (by omega)
  rw [hc, if_pos (by norm_num)]

/-- C9 counterexample: for the 60000-vertex mesh with 360000 indices and
ratio 0.3, the integer stride rounds `1/0.3` up to 4 whole triangles, so the
decimated mesh keeps 30000 of 120000 triangles — 25% of the original, which
is not approximately 30% (it is not even within the 27%–33% band). -/
theorem simplify60k_not_thirty_percent :
    (simplifyGeometryForMobile geo60k (3/10)).index =
      some (decimateIndex (List.replicate 360000 0) (3/10)) ∧
    (List.replicate 360000 (0 : Nat)).length / 3 = 120000 ∧
    (decimateIndex (List.replicate 360000 (0 : Nat)) (3/10)).length / 3 = 30000 ∧
    ¬ 27 * 120000 ≤ 100 * 30000 := by
  refine ⟨rfl, by rw [List.length_replicate], ?_, by decide⟩
  rw [decimate360000_length]

/-- C9 (amended): for the 60000-vertex, 120000-triangle mesh decimated with
ratio 0.3, the resulting triangle count is exactly one quarter of the
original, and normals, bounding sphere and bounding box are recomputed on
the result. -/
theorem simplify60k_quarter :
    (simplifyGeometryForMobile geo60k (3/10)).index =
      some (decimateIndex (List.replicate 360000 0) (3/10)) ∧
    (decimateIndex (List.replicate 360000 (0 : Nat)) (3/10)).length * 4 =
      (List.replicate 360000 (0 : Nat)).length ∧
    (simplifyGeometryForMobile geo60k (3/10)).normalsRecomputed = true ∧
    (simplifyGeometryForMobile geo60k (3/10)).boundingSphereRecomputed = true ∧
    (simplifyGeometryForMobile geo60k (3/10)).boundingBoxRecomputed = true := by
  refine ⟨rfl, ?_, rfl, rfl, rfl⟩
  rw [decimate360000_length, List.length_replicate]

/-- The previous frame's (healthy) shadow-camera bounds. -/
def prevBoundsExample : ShadowCamBounds :=
  { left := .fin (-1), right := .fin 1, top := .fin 1, bottom := .fin (-1),
    near := .fin 0, far := .fin 10 }

/-- C5 (bug exhibited at the failing input): on a frame where the scene's
only object does not intersect the camera frustum, the documented
`fitShadowFrustum` algorithm overwrites the light's bounds with the empty
box's sentinels (`left = +∞`, `right = −∞`, …) — a degenerate box — instead
of retaining the previous frame's bounds. -/
theorem fitShadowFrustum_empty_degenerate :
    fitShadowFrustum
        [{ box := ⟨⟨.fin 0, .fin 0, .fin 0⟩, ⟨.fin 5, .fin 5, .fin 5⟩⟩,
           inCameraFrustum := false }] id prevBoundsExample =
      { left := ExtVal.posInf, right := ExtVal.negInf, top := ExtVal.negInf,
        bottom := ExtVal.posInf, near := ExtVal.posInf, far := ExtVal.negInf } ∧
    fitShadowFrustum
        [{ box := ⟨⟨.fin 0, .fin 0, .fin 0⟩, ⟨.fin 5, .fin 5, .fin 5⟩⟩,
           inCameraFrustum := false }] id prevBoundsExample ≠ prevBoundsExample :=
  ⟨rfl, by decide⟩

/-- C6: over a whole session — any initial state and any observed frame
durations — the degradation stage index is non-decreasing; once applied, a
stage is never reversed. -/
theorem governor_stage_monotone (w : Nat) (s : GovernorState) (frames : List Nat) :
    s.stage ≤ (governorRun w s frames).stage := by
  induction frames generalizing s with
  | nil => exact Nat.le_refl _
  | cons d rest ih =>
    exact Nat.le_trans (governorStep_stage_le w s d) (ih (governorStep w s d))

end LacsWorld
